import Mathlib

/-!
Verification of the N-body gravity simulator (gravity-sim-v2) against its
natural-language specification.

The repository ships three source files: `src/main.rs` (startup, the constant
`G`, 100 preloaded bodies), `src/main_state.rs` (the legion-ECS event handler
wired to `main.rs`) and `src/main_state/state.rs` (a second, specs-ECS variant
of the same handler).  The physics module (`physics.rs`: `do_physics`,
`calc_collisions`, `apply_gravity`, `integrate_positions`,
`integrate_kinematics`), the entity constructors (`new_body`, `new_preview`)
and the trail updater are referenced but not present in the sources; those
parts are modelled from the specification (each such definition carries a
doc comment starting with "Modelled from the spec:").

Numbers: the Rust code uses `f32`; the embedding uses exact rationals `ℚ`,
so every algebraic claim is about the arithmetic structure of the code, not
about rounding.
-/

/-- Componentwise scalar multiple of a 2D vector, `c * v` in the Rust code
(`Vector` / `Point` are 2D `f32` vectors there). -/
def smul2 (c : ℚ) (v : ℚ × ℚ) : ℚ × ℚ := (c * v.1, c * v.2)

/-- Squared Euclidean magnitude of a 2D vector. -/
def magSq (v : ℚ × ℚ) : ℚ := v.1 * v.1 + v.2 * v.2

/-- Squared Euclidean distance between two points. -/
def distSq (p q : ℚ × ℚ) : ℚ := magSq (q - p)

/-- The gravitational constant, `const G: f32 = 66.74;` in `src/main.rs`. -/
def G : ℚ := 6674 / 100

/-- A body of the simulation.  Mirrors the per-entity components of the
sources: `Position`, `Kinematics { vel, accel, past_accel }`, `Mass`,
`Radius`, `Trail` and the `Preview` marker component (a body is a preview
iff it carries that marker; physical bodies carry `Draw` instead). -/
structure Body where
  pos : ℚ × ℚ
  vel : ℚ × ℚ
  accel : ℚ × ℚ
  pastAccel : ℚ × ℚ
  mass : ℚ
  radius : ℚ
  trail : List (ℚ × ℚ)
  trailMax : Nat
  isPreview : Bool
deriving Repr, DecidableEq

/-- The body store: entities keyed by a stable handle (legion/specs `Entity`
ids are modelled as naturals). -/
abbrev Store := List (Nat × Body)

/-- Handle lookup, the `World::get_component` / `Storage::get` operation of
the ECS: an explicit `Option`, `none` for a deleted or unknown handle. -/
def lookupBody (w : Store) (e : Nat) : Option Body :=
  (w.find? (fun x => x.1 == e)).map (fun x => x.2)

/-- Liveness query by handle, `World::is_alive` of the ECS. -/
def isAlive (w : Store) (e : Nat) : Bool :=
  (lookupBody w e).isSome

/-- Number of live preview bodies in a store. -/
def countPreviews (w : Store) : Nat :=
  (w.filter (fun x => x.2.isPreview)).length

/-- Deletion of every preview entity: both `mouse_button_up_event` and
`mouse_motion_event` (in both source variants) collect all entities holding
the `Preview` component into a `delset` and delete them. -/
def deletePreviews (w : Store) : Store :=
  w.filter (fun x => !x.2.isPreview)

/-- Overwrite the mass and radius of the body behind a handle; the write-back
of the UI sliders in `draw` (`src/main_state.rs` lines 258-259,
`src/main_state/state.rs` lines 287-288).  The stored values are written
unchecked, exactly as in the source. -/
def setMassRad (w : Store) (e : Nat) (m r : ℚ) : Store :=
  w.map (fun x => if x.1 == e then (x.1, { x.2 with mass := m, radius := r }) else x)

/-- The message of a Rust `Option::unwrap` panic. -/
def unwrapPanicMsg : String := "called Option unwrap on a None value"

/-- The selected-entity slider path of `draw` (`src/main_state.rs` lines
243-262; the specs variant at `src/main_state/state.rs` lines 162-169 and
282-290 is structurally the same): it first dereferences
`get_component::<Mass>(e).unwrap()` and `get_component::<Radius>(e).unwrap()`,
and only afterwards tests `is_alive(e)`.  A `none` from the lookup is a
panic, modelled as `Except.error`; the dead-entity branch of the (too late)
`is_alive` test merely drops the selection and leaves the store unchanged. -/
def drawSelectedEdit (w : Store) (e : Nat) (m r : ℚ) : Except String Store :=
  match lookupBody w e with
  | none => Except.error unwrapPanicMsg
  | some _ =>
      if isAlive w e then Except.ok (setMassRad w e m r)
      else Except.ok w

/-!  The physics pipeline.  `do_physics` and the individual passes live in
`physics.rs`, which is not among the provided sources; they are modelled from
spec sections 4.2-4.6 (whose ordering is corroborated by the commented-out
loop in `src/main_state.rs` lines 135-141: `calc_collisions`,
`integrate_positions`, `apply_gravity`, `integrate_kinematics`,
`update_trails`).  The pipeline is parametric in the force field
`φ : Store → Nat → ℚ × ℚ` (net acceleration assigned to a handle) and in the
merged-radius function `ρ` (the spec prescribes `sqrt (r1² + r2²)`, which has
no exact rational form); no claim proved below depends on either parameter. -/

/-- Collision test of the spec (section 4.3): center distance at most the sum
of the radii, compared in squared form. -/
def overlaps (b1 b2 : Body) : Bool :=
  decide (distSq b1.pos b2.pos ≤ (b1.radius + b2.radius) * (b1.radius + b2.radius))

/-- Modelled from the spec: the perfectly inelastic merge of section 4.3.
Mass adds, velocity and position are mass-weighted, the merged radius is
delegated to the parameter `ρ`.  The first (retained) body keeps its other
fields. -/
def mergeBodies (ρ : ℚ → ℚ → ℚ) (b1 b2 : Body) : Body :=
  let m := b1.mass + b2.mass
  { b1 with
    mass := m
    vel := smul2 (1 / m) (smul2 b1.mass b1.vel + smul2 b2.mass b2.vel)
    pos := smul2 (1 / m) (smul2 b1.mass b1.pos + smul2 b2.mass b2.pos)
    radius := ρ b1.radius b2.radius }

/-- Modelled from the spec: one sweep of the collision pass for a single
retained body `b`: absorb every later physical body that overlaps it and is
not already marked absorbed, accumulating the handles marked for deferred
deletion. -/
def sweep (ρ : ℚ → ℚ → ℚ) (b : Body) : Store → List Nat → Body × List Nat
  | [], dels => (b, dels)
  | (h2, b2) :: rest, dels =>
      if !b2.isPreview && !dels.contains h2 && overlaps b b2 then
        sweep ρ (mergeBodies ρ b b2) rest (h2 :: dels)
      else
        sweep ρ b rest dels

/-- Modelled from the spec: the collision pass (section 4.3).  Pairs are
scanned in store order; the lower-indexed body of a colliding pair is
retained, the other is marked for deferred deletion and excluded from further
pair evaluation in the same pass.  Absorbed entries stay in the store until
the reap step. -/
def collidePass (ρ : ℚ → ℚ → ℚ) : Store → List Nat → Store × List Nat
  | [], dels => ([], dels)
  | (h, b) :: rest, dels =>
      if b.isPreview || dels.contains h then
        let r := collidePass ρ rest dels
        ((h, b) :: r.1, r.2)
      else
        let s := sweep ρ b rest dels
        let r := collidePass ρ rest s.2
        ((h, s.1) :: r.1, r.2)

/-- Modelled from the spec: the position half of the integrator (section 4.4,
step 2 of section 4.6), applied per physical body with the acceleration still
holding the previous iteration's force computation:
`position += velocity * dt + 0.5 * acceleration * dt²`. -/
def integratePositions (dt : ℚ) (w : Store) : Store :=
  w.map (fun x =>
    if x.2.isPreview then x
    else (x.1, { x.2 with
      pos := x.2.pos + smul2 dt x.2.vel + smul2 (dt * dt / 2) x.2.accel }))

/-- Modelled from the spec: the force recomputation (section 4.2 / step 3 of
section 4.6).  Each physical body's acceleration field is overwritten (not
accumulated) with the net acceleration produced by the force field `φ`; the
previous value is retained in `past_accel` (the `Kinematics::past_accel`
field of the sources). -/
def applyGravityWith (φ : Store → Nat → ℚ × ℚ) (w : Store) : Store :=
  w.map (fun x =>
    if x.2.isPreview then x
    else (x.1, { x.2 with pastAccel := x.2.accel, accel := φ w x.1 }))

/-- Modelled from the spec: the velocity half of the integrator (step 4 of
section 4.6), using the freshly computed acceleration:
`velocity += acceleration * dt`. -/
def integrateKinematics (dt : ℚ) (w : Store) : Store :=
  w.map (fun x =>
    if x.2.isPreview then x
    else (x.1, { x.2 with vel := x.2.vel + smul2 dt x.2.accel }))

/-- Append a position to a bounded FIFO trail (spec section 4.5): the new
entry goes last, oldest entries are evicted down to the capacity. -/
def trailAppend (cap : Nat) (t : List (ℚ × ℚ)) (p : ℚ × ℚ) : List (ℚ × ℚ) :=
  let t' := t ++ [p]
  t'.drop (t'.length - cap)

/-- Modelled from the spec: the trail pass (section 4.5 / step 5 of section
4.6): append each body's current position to its bounded trail. -/
def updateTrails (w : Store) : Store :=
  w.map (fun x => (x.1, { x.2 with trail := trailAppend x.2.trailMax x.2.trail x.2.pos }))

/-- Reap the deletions deferred by the collision pass (step 6 of section
4.6). -/
def reap (dels : List Nat) (w : Store) : Store :=
  w.filter (fun x => !dels.contains x.1)

/-- Modelled from the spec: one pipeline iteration in the fixed order of
section 4.6: collisions (deletions deferred), position integration, force
recomputation, velocity integration, trail update, reap. -/
def stepIteration (φ : Store → Nat → ℚ × ℚ) (ρ : ℚ → ℚ → ℚ) (dt : ℚ) (w : Store) : Store :=
  let cd := collidePass ρ w []
  reap cd.2 (updateTrails (integrateKinematics dt (applyGravityWith φ (integratePositions dt cd.1))))

/-- Modelled from the spec: `do_physics`, driving `n` pipeline iterations
over the store (section 4.6, `MainIterations` in the sources). -/
def doPhysics (φ : Store → Nat → ℚ × ℚ) (ρ : ℚ → ℚ → ℚ) (dt : ℚ) : Nat → Store → Store
  | 0, w => w
  | n + 1, w => doPhysics φ ρ dt n (stepIteration φ ρ dt w)

/-!  Entity constructors.  `new_body` and `new_preview` are called from both
handler variants but defined in a module absent from the sources. -/

/-- Trail capacity of a freshly constructed body.  The capacity is not
visible in the provided sources (the spec only says it is configurable with
the bounded-FIFO behavior of section 4.5); the concrete default is
irrelevant to every claim below. -/
def trailCapacityDefault : Nat := 100

/-- Modelled from the spec: `new_body(position, velocity, mass, radius)`
constructs a physical body at the given position with the given velocity,
mass and radius, zero acceleration (`Kinematics::new` in `src/main.rs` zeroes
`accel` and `past_accel`) and an empty trail. -/
def new_body (p v : ℚ × ℚ) (m r : ℚ) : Body :=
  { pos := p, vel := v, accel := (0, 0), pastAccel := (0, 0)
    mass := m, radius := r, trail := [], trailMax := trailCapacityDefault
    isPreview := false }

/-- Modelled from the spec: `new_preview(position, velocity, radius)`
constructs a preview body — the transient drag affordance, carrying the
`Preview` marker and no mass interaction (mass recorded as 0 here; the spec
excludes previews from gravity and collision passes regardless). -/
def new_preview (p v : ℚ × ℚ) (r : ℚ) : Body :=
  { pos := p, vel := v, accel := (0, 0), pastAccel := (0, 0)
    mass := 0, radius := r, trail := [], trailMax := trailCapacityDefault
    isPreview := true }

/-- The startup world of `src/main.rs` lines 65-74: 100 physical bodies at
`((i / 10) * 100, (i % 10) * 100)` (integer division), zero velocity
(`Kinematics::new(Vector::new(0.0, 0.0))`), mass `0.2`, radius `2.5`, with a
`Draw` component (hence physical, not preview).  Handles are the insertion
indices; the startup tuple carries no `Trail` component, so the trail starts
empty. -/
def initWorld : Store :=
  (List.range 100).map (fun i =>
    (i, { pos := (((i / 10 : Nat) : ℚ) * 100, ((i % 10 : Nat) : ℚ) * 100)
          vel := (0, 0), accel := (0, 0), pastAccel := (0, 0)
          mass := 1 / 5, radius := 5 / 2, trail := [], trailMax := trailCapacityDefault
          isPreview := false }))

/-!  The event-handler state machine, embedded from `src/main_state.rs` (the
legion variant, the one `src/main.rs` constructs).  View-only state
(`imgui_wrapper`, `hidpi_factor`, camera/screen coordinates) is not part of
the machine; quantities the handlers read from the view layer — the screen
rectangle, the resolution, `items_hovered`, pending `UiSignal::Create`
signals — enter as explicit event parameters. -/

/-- The screen rectangle `graphics::Rect` used by `scale_pos`. -/
structure Rect where
  x : ℚ
  y : ℚ
  w : ℚ
  h : ℚ
deriving Repr, DecidableEq

/-- The screen-to-world transform of `src/main_state.rs` lines 33-40 (the
specs variant is identical): scale by `coords.w / resolution.x` and
`coords.h / resolution.y`, then translate by `(coords.x, coords.y)`. -/
def scale_pos (p : ℚ × ℚ) (coords : Rect) (res : ℚ × ℚ) : ℚ × ℚ :=
  (p.1 * (coords.w / res.1) + coords.x, p.2 * (coords.h / res.2) + coords.y)

/-- The engine-relevant fields of `MainState` (`src/main_state.rs` lines
42-85): the creation-mode flag, the pause flag, the recorded drag start
point, the configured mass and radius for new bodies, and the body store
(with the next fresh handle the ECS would assign). -/
structure MState where
  creating : Bool
  paused : Bool
  startPoint : Option (ℚ × ℚ)
  mass : ℚ
  rad : ℚ
  world : Store
  nextH : Nat
deriving Repr, DecidableEq

/-- Insert a body into the world under a fresh handle (`World::insert`). -/
def insertBody (s : MState) (b : Body) : MState :=
  { s with world := s.world ++ [(s.nextH, b)], nextH := s.nextH + 1 }

/-- `key_down_event` for `KeyCode::Space` (`src/main_state.rs` line 452):
toggle the pause flag.  (The specs variant toggles the `Paused` resource,
line 514.) -/
def keyDownSpace (s : MState) : MState :=
  { s with paused := !s.paused }

/-- The `update` callback (`src/main_state.rs` lines 89-159): drain any
pending `UiSignal::Create` (toggling creation mode), then, unless paused,
run `do_physics` — `MainIterations` pipeline iterations at the configured
`DT`.  `createSignal` says whether a `UiSignal::Create` is pending this
frame. -/
def tick (φ : Store → Nat → ℚ × ℚ) (ρ : ℚ → ℚ → ℚ) (createSignal : Bool)
    (iters : Nat) (dt : ℚ) (s : MState) : MState :=
  let s1 := if createSignal then { s with creating := !s.creating } else s
  if s1.paused then s1
  else { s1 with world := doPhysics φ ρ dt iters s1.world }

/-- `mouse_button_down_event` for the left button (`src/main_state.rs` lines
317-326): when no UI item is hovered and creation mode is on, record the
*scaled* click position as the drag start point but insert the preview at
the *raw* click position `p`, with zero velocity and the configured
radius. -/
def mouseDownLeft (coords : Rect) (res : ℚ × ℚ) (hovered : Bool) (raw : ℚ × ℚ)
    (s : MState) : MState :=
  if !hovered && s.creating then
    insertBody { s with startPoint := some (scale_pos raw coords res) }
      (new_preview raw (0, 0) s.rad)
  else s

/-- The creation-velocity scale factor of the wired (legion) handler:
`(start_point - p) * 0.10` in `src/main_state.rs` lines 349-357 (and the
same factor in `mouse_motion_event`, line 401). -/
def creationVelocityScale : ℚ := 1 / 10

/-- The creation-velocity scale factor of the specs variant:
`(start_point - p) * 0.025` in `src/main_state/state.rs` lines 401-403 and
461. -/
def specsCreationVelocityScale : ℚ := 1 / 40

/-- The creation velocity of the specs variant's `mouse_button_up_event`
(`src/main_state/state.rs` line 403): `(start_point - p) * 0.025` with both
points in world coordinates. -/
def specsCreationVelocity (sp p : ℚ × ℚ) : ℚ × ℚ :=
  smul2 specsCreationVelocityScale (sp - p)

/-- `mouse_button_up_event` for the left button (`src/main_state.rs` lines
332-377): if a drag start point is recorded and creation mode is on with no
pending `UiSignal::Create`, insert `new_body` at the start point with
velocity `(start_point - p) * 0.10` (where `p` is the scaled release
position) and the configured mass and radius, clearing the start point.
In every case, all preview entities are then deleted.  Note the start point
survives when the creation branch is not taken. -/
def mouseUpLeft (coords : Rect) (res : ℚ × ℚ) (signalPending : Bool) (raw : ℚ × ℚ)
    (s : MState) : MState :=
  let s1 :=
    match s.startPoint with
    | some sp =>
        if s.creating && !signalPending then
          let p := scale_pos raw coords res
          let s2 := insertBody s (new_body sp (smul2 creationVelocityScale (sp - p)) s.mass s.rad)
          { s2 with startPoint := none }
        else s
    | none => s
  { s1 with world := deletePreviews s1.world }

/-- `mouse_motion_event` (`src/main_state.rs` lines 379-403): delete every
preview entity; then, if a drag start point `sp` is recorded, insert a fresh
preview at the *scaled* start point with velocity `(sp - p) * 0.1` for the
scaled pointer position `p` and the configured radius. -/
def mouseMotion (coords : Rect) (res : ℚ × ℚ) (raw : ℚ × ℚ) (s : MState) : MState :=
  let s1 := { s with world := deletePreviews s.world }
  match s1.startPoint with
  | some sp =>
      insertBody s1 (new_preview sp (smul2 creationVelocityScale (sp - scale_pos raw coords res)) s.rad)
  | none => s1

/-!  The preview run.  In `src/main_state/state.rs` the preview trajectory is
advanced by a separate `preview_dispatcher` running over the *same* `World`
(lines 46-57); the preview systems themselves are not among the sources. -/

/-- Modelled from the spec: one preview-pipeline step.  The preview systems
advance only preview-flagged bodies (section 4.6: the hypothetical body's
trajectory is simulated; committed physical bodies are read, never written).
Per preview body, the order mirrors one pipeline iteration: position
integration with the held acceleration, fresh acceleration from the force
field `φ`, velocity integration, trail append.  Non-preview entries are
returned untouched. -/
def advancePreview (φ : Store → Nat → ℚ × ℚ) (dt : ℚ) (w : Store) (h : Nat) (b : Body) : Body :=
  let pos' := b.pos + smul2 dt b.vel + smul2 (dt * dt / 2) b.accel
  let acc' := φ w h
  { b with
    pos := pos'
    pastAccel := b.accel
    accel := acc'
    vel := b.vel + smul2 dt acc'
    trail := trailAppend b.trailMax b.trail pos' }

/-- Modelled from the spec: one iteration of the preview dispatcher over the
shared store: every preview body is advanced, every committed body is left
as is. -/
def previewStep (φ : Store → Nat → ℚ × ℚ) (dt : ℚ) (w : Store) : Store :=
  w.map (fun x => if x.2.isPreview then (x.1, advancePreview φ dt w x.1 x.2) else x)

/-- Modelled from the spec: the preview run, `preview_iterations` iterations
of the preview pipeline (the `PreviewIterations` resource; default 25 in
`src/main_state.rs` line 83). -/
def previewRun (φ : Store → Nat → ℚ × ℚ) (dt : ℚ) : Nat → Store → Store
  | 0, w => w
  | n + 1, w => previewRun φ dt n (previewStep φ dt w)

/-- Modelled from the spec: the gravitational acceleration one pass imparts
to a body at `p1` from a physical body of mass `m2` at `p2`, where `d` is
the Euclidean distance between the two positions (supplied explicitly, with
`d * d = distSq p1 p2` as a side condition, since `ℚ` has no square root):
magnitude `G * m2 / d²` along the unit vector `(p2 - p1) / d` (spec section
4.2). -/
def gravAccel (p1 p2 : ℚ × ℚ) (m2 d : ℚ) : ℚ × ℚ :=
  smul2 (G * m2 / (d * d * d)) (p2 - p1)

/-!  Shared demo inputs for concrete evaluations. -/

/-- A zero force field (the pipeline theorems hold for every `φ`; concrete
runs use this one). -/
def φ0 : Store → Nat → ℚ × ℚ := fun _ _ => (0, 0)

/-- A trivial merged-radius function for concrete runs. -/
def ρ0 : ℚ → ℚ → ℚ := fun _ _ => 0

/-- The identity screen rectangle for the 600 × 600 startup window. -/
def rect600 : Rect := ⟨0, 0, 600, 600⟩

/-- A doubling (non-identity) screen rectangle. -/
def rectBig : Rect := ⟨0, 0, 1200, 1200⟩

/-- The startup resolution. -/
def res600 : ℚ × ℚ := (600, 600)

/-- A concrete physical body. -/
def bodyA : Body :=
  { pos := (0, 0), vel := (1, 0), accel := (0, 0), pastAccel := (0, 0)
    mass := 1, radius := 1, trail := [], trailMax := 100, isPreview := false }

/-- A second physical body overlapping `bodyA`. -/
def bodyB : Body := { bodyA with vel := (0, 0), mass := 3 }

/-- A concrete paused state over the startup world. -/
def pausedDemo : MState :=
  { creating := false, paused := true, startPoint := none, mass := 1 / 10, rad := 1
    world := initWorld, nextH := 100 }

/-- The store after one pipeline iteration over two overlapping physical
bodies: handle 1 (`bodyB`) is absorbed into handle 0 by the collision pass
and reaped at the end of the iteration. -/
def mergedDemo : Store := stepIteration φ0 ρ0 1 [(0, bodyA), (1, bodyB)]

/-- A concrete mid-drag state: creation mode on, drag started at `(5, 5)`,
empty world. -/
def dragDemo : MState :=
  { creating := true, paused := false, startPoint := some (5, 5), mass := 1 / 10, rad := 1
    world := [], nextH := 0 }

/-- Positivity of mass and radius for every physical (non-preview) body of a
store — the invariant of spec section 3. -/
def physPositive (w : Store) : Prop :=
  ∀ x ∈ w, x.2.isPreview = false → 0 < x.2.mass ∧ 0 < x.2.radius

instance (w : Store) : Decidable (physPositive w) := by
  unfold physPositive
  infer_instance

/-- The store after the UI edit writes `-1` into the selected body's mass
and radius sliders. -/
def badEditWorld : Store := setMassRad initWorld 0 (-1) (-1)

/-- The event sequence that leaves two previews alive, on the handlers of
`src/main_state.rs`: pause; toggle creation on; press left at `(5, 5)` (drag
starts, preview inserted); toggle creation off mid-drag; release left — no
body is created because `creating` is off, and crucially the start point is
*not* cleared (the clear sits inside the creation branch), though previews
are deleted; toggle creation back on; move the pointer — the surviving start
point makes the motion handler insert a preview; press left again — the down
handler inserts a second preview without deleting the first. -/
def c8run : MState :=
  mouseDownLeft rect600 res600 false (8, 8)
    (mouseMotion rect600 res600 (7, 7)
      (tick φ0 ρ0 true 1 1
        (mouseUpLeft rect600 res600 false (9, 9)
          (tick φ0 ρ0 true 1 1
            (mouseDownLeft rect600 res600 false (5, 5)
              (tick φ0 ρ0 true 1 1
                (keyDownSpace
                  { creating := false, paused := false, startPoint := none
                    mass := 1 / 10, rad := 1, world := [], nextH := 0 })))))))

/-- The identity-scale rectangle translated by `(10, 0)`. -/
def rectShift : Rect := ⟨10, 0, 600, 600⟩

/-!  Helper lemmas. -/

/-- Driving `n` pipeline iterations is the `n`-fold iterate of one
iteration. -/
theorem doPhysics_eq_iterate (φ : Store → Nat → ℚ × ℚ) (ρ : ℚ → ℚ → ℚ)
    (dt : ℚ) (n : Nat) (w : Store) :
    doPhysics φ ρ dt n w = (stepIteration φ ρ dt)^[n] w := by
  induction n generalizing w with
  | zero => rfl
  | succ n ih => rw [doPhysics, ih, Function.iterate_succ_apply]

/-- A map that rewrites only preview entries (preserving the preview flag)
leaves the non-preview sublist untouched. -/
theorem filter_map_nonpreview (f : Nat × Body → Body)
    (hf : ∀ x : Nat × Body, (f x).isPreview = x.2.isPreview) (l : Store) :
    (l.map (fun x => if x.2.isPreview then (x.1, f x) else x)).filter
        (fun x => !x.2.isPreview)
      = l.filter (fun x => !x.2.isPreview) := by
  induction l with
  | nil => rfl
  | cons a l ih =>
      by_cases h : a.2.isPreview
      · simp [h, hf, ih]
      · simp [h, ih]

/-- One preview-dispatcher iteration does not change the committed
(non-preview) sublist. -/
theorem previewStep_preserves (φ : Store → Nat → ℚ × ℚ) (dt : ℚ) (w : Store) :
    deletePreviews (previewStep φ dt w) = deletePreviews w := by
  unfold deletePreviews previewStep
  exact filter_map_nonpreview (fun x => advancePreview φ dt w x.1 x.2) (fun x => rfl) w

/-- Deleting the previews leaves no preview behind. -/
theorem countPreviews_deletePreviews (w : Store) :
    countPreviews (deletePreviews w) = 0 := by
  unfold countPreviews deletePreviews
  induction w with
  | nil => rfl
  | cons a l ih => by_cases h : a.2.isPreview <;> simp [h, ih]

/-!  The claims. -/

/-- Claim C1: running the preview pipeline for any number of iterations,
over any store (hence any hypothetical preview body contained in it), any
force field and any time step, leaves the committed (non-preview) body set
untouched: the sublist of non-preview entries — handle and every field
(position, velocity, acceleration, mass, radius, trail) — is unchanged, and
every committed entry of the original store is still present verbatim. -/
theorem c1_preview_isolation (φ : Store → Nat → ℚ × ℚ) (dt : ℚ) (n : Nat) (w : Store) :
    deletePreviews (previewRun φ dt n w) = deletePreviews w
    ∧ ∀ x ∈ w, x.2.isPreview = false → x ∈ previewRun φ dt n w := by
  have key : ∀ m v, deletePreviews (previewRun φ dt m v) = deletePreviews v := by
    intro m
    induction m with
    | zero => intro v; rfl
    | succ m ih => intro v; rw [previewRun, ih, previewStep_preserves]
  refine ⟨key n w, ?_⟩
  intro x hx hp
  have hmem : x ∈ deletePreviews w := by
    unfold deletePreviews
    exact List.mem_filter.2 ⟨hx, by simp [hp]⟩
  have : x ∈ deletePreviews (previewRun φ dt n w) := (key n w).symm ▸ hmem
  exact (List.mem_filter.1 this).1

/-- Claim C4: a tick in Running mode drives exactly `iters` pipeline
iterations over the body store, and each iteration is the fixed ordered
composition: collision pass (deletions deferred), position integration,
force recomputation, velocity integration, trail update, reap of the
deferred deletions. -/
theorem c4_pipeline_order (φ : Store → Nat → ℚ × ℚ) (ρ : ℚ → ℚ → ℚ)
    (iters : Nat) (dt : ℚ) (s : MState) :
    (tick φ ρ false iters dt { s with paused := false }).world
      = (stepIteration φ ρ dt)^[iters] s.world
    ∧ ∀ w : Store, stepIteration φ ρ dt w =
        reap (collidePass ρ w []).2
          (updateTrails (integrateKinematics dt (applyGravityWith φ
            (integratePositions dt (collidePass ρ w []).1)))) := by
  constructor
  · simpa [tick] using doPhysics_eq_iterate φ ρ dt iters s.world
  · intro w; rfl

/-- Claim C5: the run mode is a single boolean (`paused`), so there are
exactly two modes, toggled by the Space key (a double toggle returns to the
original mode); and a tick received while paused leaves the body store —
hence every body's position, velocity, acceleration and trail — unchanged,
executing no pipeline iteration. -/
theorem c5_two_modes_paused_noop (φ : Store → Nat → ℚ × ℚ) (ρ : ℚ → ℚ → ℚ)
    (sig : Bool) (iters : Nat) (dt : ℚ) (s : MState) (h : s.paused = true) :
    (tick φ ρ sig iters dt s).world = s.world
    ∧ (keyDownSpace s).paused = !s.paused
    ∧ (keyDownSpace (keyDownSpace s)).paused = s.paused := by
  refine ⟨?_, rfl, by simp [keyDownSpace]⟩
  unfold tick
  cases sig <;> simp [h]


/-- Witness for C5 at a concrete paused state. -/
theorem c5_two_modes_paused_noop_witness :
    (tick φ0 ρ0 true 5 1 pausedDemo).world = pausedDemo.world
    ∧ (keyDownSpace pausedDemo).paused = !pausedDemo.paused
    ∧ (keyDownSpace (keyDownSpace pausedDemo)).paused = pausedDemo.paused :=
  c5_two_modes_paused_noop φ0 ρ0 true 5 1 pausedDemo rfl

/-- Squared magnitude of a scalar multiple. -/
theorem magSq_smul2 (c : ℚ) (v : ℚ × ℚ) : magSq (smul2 c v) = c * c * magSq v := by
  simp only [magSq, smul2]
  ring

/-- Claim C9: with `d` the Euclidean distance between the two positions
(`d * d = distSq`, `d > 0`), the acceleration one force pass imparts to the
body at `p1` from a physical body of mass `m2 > 0` at `p2` has squared
magnitude `(G * m2 / d²)²` — i.e. magnitude `G * m2 / d²` — and is a
positive scalar multiple of `p2 - p1`, i.e. directed toward the other body;
and the configured constant is `G = 66.74`. -/
theorem c9_gravity_magnitude (p1 p2 : ℚ × ℚ) (m2 d : ℚ)
    (hd : d * d = distSq p1 p2) (hdpos : 0 < d) (hm : 0 < m2) :
    magSq (gravAccel p1 p2 m2 d) = (G * m2 / (d * d)) * (G * m2 / (d * d))
    ∧ gravAccel p1 p2 m2 d = smul2 (G * m2 / (d * d * d)) (p2 - p1)
    ∧ 0 < G * m2 / (d * d * d)
    ∧ G = 6674 / 100 := by
  have hd0 : d ≠ 0 := ne_of_gt hdpos
  refine ⟨?_, rfl, ?_, rfl⟩
  · rw [gravAccel, magSq_smul2]
    have hmag : magSq (p2 - p1) = d * d := by rw [hd]; rfl
    rw [hmag]
    field_simp
    ring
  · apply div_pos
    · have hG : (0 : ℚ) < G := by norm_num [G]
      exact mul_pos hG hm
    · positivity

/-- Witness for C9 at `p1 = (0,0)`, `p2 = (3,4)`, `m2 = 2`, `d = 5`. -/
theorem c9_gravity_magnitude_witness :
    magSq (gravAccel (0, 0) (3, 4) 2 5) = (G * 2 / (5 * 5)) * (G * 2 / (5 * 5))
    ∧ gravAccel (0, 0) (3, 4) 2 5 = smul2 (G * 2 / (5 * 5 * 5)) (((3, 4) : ℚ × ℚ) - (0, 0))
    ∧ 0 < G * 2 / (5 * 5 * 5)
    ∧ G = 6674 / 100 :=
  c9_gravity_magnitude (0, 0) (3, 4) 2 5
    (by norm_num [distSq, magSq, Prod.fst_sub, Prod.snd_sub])
    (by norm_num) (by norm_num)


/-- Claim C2 (code bug): after a merge deletes a body, the store-level
queries through its handle do return an explicit absence —
`lookupBody = none`, `isAlive = false` — but the `draw` path of both source
variants dereferences the stale selected handle
(`get_component::<Mass>(e).unwrap()`) *before* its `is_alive` test, which is
a panic, not an absence result. -/
theorem c2_stale_handle_panic :
    lookupBody mergedDemo 1 = none
    ∧ isAlive mergedDemo 1 = false
    ∧ drawSelectedEdit mergedDemo 1 1 1 = Except.error unwrapPanicMsg := by
  have h : lookupBody mergedDemo 1 = none := by
    norm_num [mergedDemo, stepIteration, collidePass, sweep, overlaps, mergeBodies,
      bodyA, bodyB, φ0, ρ0, integratePositions, applyGravityWith, integrateKinematics,
      updateTrails, trailAppend, reap, lookupBody, distSq, magSq, smul2,
      Prod.fst_sub, Prod.snd_sub]
  refine ⟨h, ?_, ?_⟩
  · rw [isAlive, h]; rfl
  · rw [drawSelectedEdit, h]

/-- A completed creation drag (start point recorded, creation mode on, no
pending UI signal) appends exactly one new physical body: positioned at the
recorded start point, with velocity `(start_point - p) * 0.10` for the scaled
release position `p`, and the configured mass and radius; all previews are
removed. -/
theorem mouseUpLeft_creates (coords : Rect) (res raw sp : ℚ × ℚ) (s : MState)
    (hsp : s.startPoint = some sp) (hc : s.creating = true) :
    (mouseUpLeft coords res false raw s).world
      = deletePreviews s.world
        ++ [(s.nextH, new_body sp (smul2 creationVelocityScale (sp - scale_pos raw coords res)) s.mass s.rad)] := by
  unfold mouseUpLeft
  rw [hsp]
  simp only [hc, Bool.not_false, Bool.and_true, if_true, insertBody]
  unfold deletePreviews
  rw [List.filter_append]
  simp [new_body]

/-- Claim C3: the body created by a completed drag with recorded start point
`sp` and world-coordinate release point `scale_pos raw coords res` has
velocity `(sp - p) * creationVelocityScale`; the scale factor is the fixed
constant `0.10` in the handler wired to `main.rs` (and the specs variant
uses the fixed constant `0.025`), and both constants lie in the range
`0.025` to `0.1`. -/
theorem c3_creation_velocity (coords : Rect) (res raw sp : ℚ × ℚ) (s : MState)
    (hsp : s.startPoint = some sp) (hc : s.creating = true) :
    (mouseUpLeft coords res false raw s).world
      = deletePreviews s.world
        ++ [(s.nextH, new_body sp (smul2 creationVelocityScale (sp - scale_pos raw coords res)) s.mass s.rad)]
    ∧ (new_body sp (smul2 creationVelocityScale (sp - scale_pos raw coords res)) s.mass s.rad).vel
        = smul2 creationVelocityScale (sp - scale_pos raw coords res)
    ∧ specsCreationVelocity sp (scale_pos raw coords res)
        = smul2 specsCreationVelocityScale (sp - scale_pos raw coords res)
    ∧ (1 / 40 : ℚ) ≤ creationVelocityScale ∧ creationVelocityScale ≤ 1 / 10
    ∧ (1 / 40 : ℚ) ≤ specsCreationVelocityScale ∧ specsCreationVelocityScale ≤ 1 / 10 := by
  refine ⟨mouseUpLeft_creates coords res raw sp s hsp hc, rfl, rfl, ?_, ?_, ?_, ?_⟩
  · norm_num [creationVelocityScale]
  · norm_num [creationVelocityScale]
  · norm_num [specsCreationVelocityScale]
  · norm_num [specsCreationVelocityScale]


/-- Witness for C3 at the concrete mid-drag state `dragDemo` and release
position `(9, 9)`. -/
theorem c3_creation_velocity_witness :
    (mouseUpLeft rect600 res600 false (9, 9) dragDemo).world
      = deletePreviews dragDemo.world
        ++ [(dragDemo.nextH, new_body (5, 5) (smul2 creationVelocityScale (((5 : ℚ), (5 : ℚ)) - scale_pos (9, 9) rect600 res600)) dragDemo.mass dragDemo.rad)]
    ∧ (new_body (5, 5) (smul2 creationVelocityScale (((5 : ℚ), (5 : ℚ)) - scale_pos (9, 9) rect600 res600)) dragDemo.mass dragDemo.rad).vel
        = smul2 creationVelocityScale (((5 : ℚ), (5 : ℚ)) - scale_pos (9, 9) rect600 res600)
    ∧ specsCreationVelocity (5, 5) (scale_pos (9, 9) rect600 res600)
        = smul2 specsCreationVelocityScale (((5 : ℚ), (5 : ℚ)) - scale_pos (9, 9) rect600 res600)
    ∧ (1 / 40 : ℚ) ≤ creationVelocityScale ∧ creationVelocityScale ≤ 1 / 10
    ∧ (1 / 40 : ℚ) ≤ specsCreationVelocityScale ∧ specsCreationVelocityScale ≤ 1 / 10 :=
  c3_creation_velocity rect600 res600 (9, 9) (5, 5) dragDemo rfl rfl

/-- Claim C6 counterexample: before any drag gesture has ever completed —
at program start, reachable with zero input events — the world already
contains 100 physical (non-preview) bodies, preloaded by `main`
(`src/main.rs` lines 65-74).  So physical bodies do come into existence at
a point other than drag completion. -/
theorem c6_startup_bodies_counterexample :
    initWorld.length = 100 ∧ countPreviews initWorld = 0 ∧ initWorld ≠ [] := by
  refine ⟨by simp [initWorld], by decide, by decide⟩

/-- Claim C6 amended: every body created by a completed drag gesture is
physical, positioned at the gesture's recorded start point with the mass and
radius configured at release — but in addition `main` preloads 100 physical
bodies at startup, so drag completion is not the only creation point. -/
theorem c6_drag_provenance (coords : Rect) (res raw sp v : ℚ × ℚ) (m r : ℚ) (s : MState)
    (hsp : s.startPoint = some sp) (hc : s.creating = true) :
    (mouseUpLeft coords res false raw s).world
      = deletePreviews s.world
        ++ [(s.nextH, new_body sp (smul2 creationVelocityScale (sp - scale_pos raw coords res)) s.mass s.rad)]
    ∧ (new_body sp v m r).pos = sp
    ∧ (new_body sp v m r).mass = m
    ∧ (new_body sp v m r).radius = r
    ∧ (new_body sp v m r).isPreview = false
    ∧ initWorld.length = 100 :=
  ⟨mouseUpLeft_creates coords res raw sp s hsp hc, rfl, rfl, rfl, rfl, by simp [initWorld]⟩

/-- Witness for the amended C6 at the concrete mid-drag state `dragDemo`
and release position `(7, 3)`. -/
theorem c6_drag_provenance_witness :
    (mouseUpLeft rect600 res600 false (7, 3) dragDemo).world
      = deletePreviews dragDemo.world
        ++ [(dragDemo.nextH, new_body (5, 5) (smul2 creationVelocityScale (((5 : ℚ), (5 : ℚ)) - scale_pos (7, 3) rect600 res600)) dragDemo.mass dragDemo.rad)]
    ∧ (new_body (5, 5) ((1 : ℚ), (1 : ℚ)) 2 3).pos = (5, 5)
    ∧ (new_body (5, 5) ((1 : ℚ), (1 : ℚ)) 2 3).mass = 2
    ∧ (new_body (5, 5) ((1 : ℚ), (1 : ℚ)) 2 3).radius = 3
    ∧ (new_body (5, 5) ((1 : ℚ), (1 : ℚ)) 2 3).isPreview = false
    ∧ initWorld.length = 100 :=
  c6_drag_provenance rect600 res600 (7, 3) (5, 5) (1, 1) 2 3 dragDemo rfl rfl


/-- The startup bodies all have mass `0.2 > 0` and radius `2.5 > 0`. -/
theorem physPositive_initWorld : physPositive initWorld := by
  intro x hx _
  rcases List.mem_map.1 hx with ⟨i, _, rfl⟩
  refine ⟨by norm_num, by norm_num⟩


/-- Claim C7 counterexample: the slider write-back of `draw` stores the
edited mass and radius unchecked, so editing the selected startup body `0`
to `-1 / -1` succeeds and leaves a physical body with negative mass and
radius in the committed store. -/
theorem c7_unchecked_edit_counterexample :
    drawSelectedEdit initWorld 0 (-1) (-1) = Except.ok badEditWorld
    ∧ (lookupBody badEditWorld 0).map Body.mass = some (-1)
    ∧ (lookupBody badEditWorld 0).map Body.radius = some (-1)
    ∧ ¬ physPositive badEditWorld := by
  have hs : (lookupBody initWorld 0).isSome = true := by decide
  refine ⟨?_, by decide, by decide, by decide⟩
  cases h : lookupBody initWorld 0 with
  | none => rw [h] at hs; cases hs
  | some b => simp [drawSelectedEdit, h, isAlive, badEditWorld]

/-- Claim C7 amended: bodies created at startup, and bodies created through
`new_body` from positive configuration values, have strictly positive mass
and radius; and the UI-edit write-back preserves the positivity invariant
*provided* the edited values are positive — the write itself is unchecked,
so the invariant is conditional on the slider values (see the
counterexample). -/
theorem c7_positivity_amended (w : Store) (e : Nat) (m r : ℚ) (p v : ℚ × ℚ)
    (hm : 0 < m) (hr : 0 < r) (hw : physPositive w) :
    physPositive (setMassRad w e m r)
    ∧ physPositive initWorld
    ∧ 0 < (new_body p v m r).mass ∧ 0 < (new_body p v m r).radius := by
  refine ⟨?_, physPositive_initWorld, hm, hr⟩
  intro x hx hp
  rcases List.mem_map.1 hx with ⟨y, hy, rfl⟩
  by_cases h : y.1 == e
  · simp only [setMassRad, h, if_true] at hp ⊢
    exact ⟨hm, hr⟩
  · simp only [setMassRad, h, if_false] at hp ⊢
    exact hw y hy hp

/-- Witness for the amended C7: editing body `0` of a one-body store to
mass `1`, radius `2`. -/
theorem c7_positivity_amended_witness :
    physPositive (setMassRad [(0, bodyA)] 0 1 2)
    ∧ physPositive initWorld
    ∧ 0 < (new_body ((0 : ℚ), (0 : ℚ)) ((0 : ℚ), (0 : ℚ)) 1 2).mass
    ∧ 0 < (new_body ((0 : ℚ), (0 : ℚ)) ((0 : ℚ), (0 : ℚ)) 1 2).radius :=
  c7_positivity_amended [(0, bodyA)] 0 1 2 (0, 0) (0, 0)
    (by norm_num) (by norm_num) (by decide)

/-- Preview count distributes over store append. -/
theorem countPreviews_append (w1 w2 : Store) :
    countPreviews (w1 ++ w2) = countPreviews w1 + countPreviews w2 := by
  unfold countPreviews
  rw [List.filter_append, List.length_append]

/-- Claim C8 amended: every pointer-move first deletes all previews and then
inserts at most one fresh one (so at most one preview is alive after any
motion event), and every mouse-up deletes all previews; but the mouse-down
handler inserts its preview *without* deleting existing ones (it simply
appends to the world), which is what makes a two-preview state reachable
(see the counterexample). -/
theorem c8_preview_discipline (coords : Rect) (res raw : ℚ × ℚ) (sig : Bool) (s : MState) :
    countPreviews (mouseMotion coords res raw s).world ≤ 1
    ∧ countPreviews (mouseUpLeft coords res sig raw s).world = 0
    ∧ (mouseDownLeft coords res false raw { s with creating := true }).world
        = s.world ++ [(s.nextH, new_preview raw (0, 0) s.rad)] := by
  refine ⟨?_, countPreviews_deletePreviews _, by simp [mouseDownLeft, insertBody]⟩
  unfold mouseMotion
  cases h : s.startPoint with
  | none => simp [h, countPreviews_deletePreviews]
  | some sp =>
      simp only [h, insertBody]
      rw [countPreviews_append, countPreviews_deletePreviews]
      simp [countPreviews, new_preview]


/-- Claim C8 counterexample: after the event sequence of `c8run`, two
preview bodies are alive at once in the committed world. -/
theorem c8_two_previews_counterexample : countPreviews c8run.world = 2 := by
  decide

/-- Claim C10 amended: on a creating left-press the recorded drag start
point is the scaled click position while the inserted preview sits at the
raw click position; the two differ whenever the screen transform moves the
click point (`scale_pos raw ≠ raw`) — not for every non-identity transform,
since a transform can fix an individual point (see the counterexample) —
and every preview inserted by a subsequent pointer-move sits at the scaled
start point. -/
theorem c10_raw_vs_scaled (coords : Rect) (res raw raw2 sp v : ℚ × ℚ) (r : ℚ)
    (s s2 : MState) (hne : scale_pos raw coords res ≠ raw) :
    (mouseDownLeft coords res false raw { s with creating := true }).startPoint
        = some (scale_pos raw coords res)
    ∧ (mouseDownLeft coords res false raw { s with creating := true }).world
        = s.world ++ [(s.nextH, new_preview raw (0, 0) s.rad)]
    ∧ (new_preview raw v r).pos = raw
    ∧ (mouseDownLeft coords res false raw { s with creating := true }).startPoint ≠ some raw
    ∧ (mouseMotion coords res raw2 { s2 with startPoint := some sp }).world
        = deletePreviews s2.world
          ++ [(s2.nextH, new_preview sp (smul2 creationVelocityScale (sp - scale_pos raw2 coords res)) s2.rad)]
    ∧ (new_preview sp v r).pos = sp := by
  have h1 : (mouseDownLeft coords res false raw { s with creating := true }).startPoint
      = some (scale_pos raw coords res) := by
    simp [mouseDownLeft, insertBody]
  refine ⟨h1, by simp [mouseDownLeft, insertBody], rfl, ?_, ?_, rfl⟩
  · rw [h1]
    simpa using hne
  · simp [mouseMotion, insertBody]


/-- Witness for the amended C10: with the translated screen rectangle the
scaled click position differs from the raw one. -/
theorem c10_raw_vs_scaled_witness :
    (mouseDownLeft rectShift res600 false (0, 0) { dragDemo with creating := true }).startPoint
        = some (scale_pos (0, 0) rectShift res600)
    ∧ (mouseDownLeft rectShift res600 false (0, 0) { dragDemo with creating := true }).world
        = dragDemo.world ++ [(dragDemo.nextH, new_preview (0, 0) (0, 0) dragDemo.rad)]
    ∧ (new_preview ((0 : ℚ), (0 : ℚ)) ((1 : ℚ), (1 : ℚ)) 3).pos = (0, 0)
    ∧ (mouseDownLeft rectShift res600 false (0, 0) { dragDemo with creating := true }).startPoint
        ≠ some ((0 : ℚ), (0 : ℚ))
    ∧ (mouseMotion rectShift res600 (2, 2) { dragDemo with startPoint := some (5, 5) }).world
        = deletePreviews dragDemo.world
          ++ [(dragDemo.nextH, new_preview (5, 5) (smul2 creationVelocityScale (((5 : ℚ), (5 : ℚ)) - scale_pos (2, 2) rectShift res600)) dragDemo.rad)]
    ∧ (new_preview ((5 : ℚ), (5 : ℚ)) ((1 : ℚ), (1 : ℚ)) 3).pos = (5, 5) :=
  c10_raw_vs_scaled rectShift res600 (0, 0) (2, 2) (5, 5) (1, 1) 3 dragDemo dragDemo
    (by norm_num [scale_pos, rectShift, res600, Prod.ext_iff])

/-- Claim C10 counterexample: with the doubling (non-identity) screen
rectangle and a click at the origin — a fixed point of the transform — the
recorded start point and the first preview's position coincide, refuting
"differs for every non-identity transform". -/
theorem c10_fixed_point_counterexample :
    scale_pos (1, 1) rectBig res600 ≠ (1, 1)
    ∧ (mouseDownLeft rectBig res600 false (0, 0) dragDemo).startPoint
        = some ((0 : ℚ), (0 : ℚ))
    ∧ (mouseDownLeft rectBig res600 false (0, 0) dragDemo).world.map (fun x => x.2.pos)
        = [((0 : ℚ), (0 : ℚ))] := by
  refine ⟨by norm_num [scale_pos, rectBig, res600, Prod.ext_iff], ?_, ?_⟩
  · simp [mouseDownLeft, insertBody, dragDemo]
    norm_num [scale_pos, rectBig, res600, Prod.ext_iff]
  · simp [mouseDownLeft, insertBody, dragDemo, new_preview]
